import Mathlib

/-!
Shallow embedding of the importer core `core/import_step.py` of the
netascore repository and verification of its specification claims.

Python strings are modelled as `List Char` internally (`String` at the
outer API), so every function below is structurally recursive and its
applications to concrete data evaluate inside the kernel.
-/

/-- Python default `str.strip()` whitespace characters (the ASCII ones;
the importer only ever strips ASCII metadata lines). -/
def isPySpace (c : Char) : Bool :=
  c = ' ' || c = '\t' || c = '\n' || c = '\r' || c = '\x0b' || c = '\x0c'

/-- Python `str.strip()`: drop leading and trailing whitespace. -/
def pyStrip (cs : List Char) : List Char :=
  ((cs.dropWhile isPySpace).reverse.dropWhile isPySpace).reverse

/-- Python `str.lower()` (ASCII case folding; the metadata is ASCII). -/
def pyLower (cs : List Char) : List Char :=
  cs.map Char.toLower

/-- Python `str.split(';')`: split at every semicolon, keeping empty fields. -/
def splitSemicolon : List Char → List (List Char)
  | [] => [[]]
  | c :: cs =>
    let r := splitSemicolon cs
    if c = ';' then [] :: r
    else
      match r with
      | h :: t => (c :: h) :: t
      | [] => [[c]]

/-- Record-kind dispatch shared by `create_csv` and `create_sql`: the
`line.startswith` if/elif chain on the 4-character tags. -/
inductive LineKind where
  | tbl | atr | frm | recRow | other
deriving DecidableEq

/-- Classify one line of the export file by its leading tag. -/
def lineKind (l : List Char) : LineKind :=
  if ("tbl;".data).isPrefixOf l then .tbl
  else if ("atr;".data).isPrefixOf l then .atr
  else if ("frm;".data).isPrefixOf l then .frm
  else if ("rec;".data).isPrefixOf l then .recRow
  else .other

/-- Python `line.replace(chr(34) ++ chr(34), empty)`: remove every
non-overlapping occurrence of two consecutive double quotes, left to right. -/
def removeQuotePairs : List Char → List Char
  | '\"' :: '\"' :: cs => removeQuotePairs cs
  | c :: cs => c :: removeQuotePairs cs
  | [] => []

/-- Python `line.replace` for the quote-space-quote pattern, empty replacement. -/
def removeQuoteSpaceQuote : List Char → List Char
  | '\"' :: ' ' :: '\"' :: cs => removeQuoteSpaceQuote cs
  | c :: cs => c :: removeQuoteSpaceQuote cs
  | [] => []

/-- Failure of `create_csv`: a write (or the final close) reaches the
unbound local `file_csv` because no `tbl;` line has opened the sink yet. -/
inductive CsvError where
  | noOpenSink
deriving DecidableEq

/-- One iteration of the `create_csv` loop body, threading the open sink
(`none` = `file_csv` still unbound, `some s` = sink open with content `s`). -/
def csvStep (sink : Option (List Char)) (l : List Char) :
    Except CsvError (Option (List Char)) :=
  match lineKind l with
  | .tbl => .ok (some [])
  | .atr =>
    match sink with
    | none => .error .noOpenSink
    | some s => .ok (some (s ++ l.drop 4))
  | .recRow =>
    match sink with
    | none => .error .noOpenSink
    | some s => .ok (some (s ++ removeQuoteSpaceQuote (removeQuotePairs (l.drop 4))))
  | _ => .ok sink

/-- The `create_csv` line loop. -/
def createCsvLines : List (List Char) → Option (List Char) →
    Except CsvError (Option (List Char))
  | [], sink => .ok sink
  | l :: ls, sink =>
    match csvStep sink l with
    | .error e => .error e
    | .ok s => createCsvLines ls s

/-- `create_csv` from the source: converts the export file (given as its
lines, each keeping its trailing newline, as Python file iteration yields
them) into the content of the derived csv file. -/
def create_csv (lines : List String) : Except CsvError String :=
  match createCsvLines (lines.map String.data) none with
  | .error e => .error e
  | .ok none => .error .noOpenSink
  | .ok (some s) => .ok (String.mk s)

/-- The regex character class `[0-9]`. -/
def isDigitChar (c : Char) : Bool := '0' ≤ c && c ≤ '9'

/-- Greedy `[0-9]*`: the longest digit prefix, and the rest of the input. -/
def digitSpan : List Char → List Char × List Char
  | [] => ([], [])
  | c :: cs =>
    if isDigitChar c then
      let r := digitSpan cs
      (c :: r.1, r.2)
    else ([], c :: cs)

/-- Anchored literal prefix match: the leading literal part of the regexes. -/
def stripPrefixChars : List Char → List Char → Option (List Char)
  | [], cs => some cs
  | _ :: _, [] => none
  | p :: ps, c :: cs => if c = p then stripPrefixChars ps cs else none

/-- The regex match for a string type with a length, capturing the digits. -/
def parseStringLen (cs : List Char) : Option (List Char) :=
  match stripPrefixChars ("string(".data) cs with
  | none => none
  | some rest =>
    match digitSpan rest with
    | (d, ')' :: _) => some d
    | _ => none

/-- The regex match for a decimal type with precision and scale,
capturing both digit groups. -/
def parseDecimalPS (cs : List Char) : Option (List Char × List Char) :=
  match stripPrefixChars ("decimal(".data) cs with
  | none => none
  | some rest =>
    match digitSpan rest with
    | (p, ',' :: r2) =>
      match digitSpan r2 with
      | (s, ')' :: _) => some (p, s)
      | _ => none
    | _ => none

/-- The regex match for a bare decimal type, capturing the precision digits. -/
def parseDecimalP (cs : List Char) : Option (List Char) :=
  match stripPrefixChars ("decimal(".data) cs with
  | none => none
  | some rest =>
    match digitSpan rest with
    | (p, ')' :: _) => some p
    | _ => none

/-- Python `int` on a digit string. -/
def digitsToNat (ds : List Char) : Nat :=
  ds.foldl (fun n c => n * 10 + (c.toNat - '0'.toNat)) 0

/-- The per-token type mapping of `create_sql` (the loop body over `frm`):
string check, then the three anchored regexes in source order.  `none`
models the `ValueError` that Python `int` raises on the empty digit group
of a bare `decimal()` token. -/
def mapFrmChars (cs : List Char) : Option (List Char) :=
  let r0 := if cs = ("string".data) then ("varchar".data) else cs
  match parseStringLen cs with
  | some n => some (("varchar(".data) ++ n ++ (")".data))
  | none =>
    match parseDecimalPS cs with
    | some ps => some (("numeric(".data) ++ ps.1 ++ (",".data) ++ ps.2 ++ (")".data))
    | none =>
      match parseDecimalP cs with
      | some p =>
        if p = [] then none
        else if digitsToNat p ≤ 4 then some ("smallint".data)
        else if digitsToNat p ≤ 10 then some ("integer".data)
        else if digitsToNat p ≤ 18 then some ("bigint".data)
        else some (("numeric(".data) ++ p ++ (")".data))
      | none => some r0

/-- String-level view of the type mapping. -/
def mapFrm (t : String) : Option String :=
  (mapFrmChars t.data).map String.mk

/-- The mutable locals of the `create_sql` scan loop. -/
structure SqlScanState where
  tbl : Option (List Char)
  atr : Option (List (List Char))
  frm : Option (List (List Char))

/-- The scan loop of `create_sql`: processes lines up to (excluding) the
first `rec;` line; the latest `tbl;`, `atr;`, `frm;` line wins. -/
def sqlScan : List (List Char) → SqlScanState → SqlScanState
  | [], st => st
  | l :: ls, st =>
    match lineKind l with
    | .tbl => sqlScan ls { st with tbl := some (pyLower (pyStrip (l.drop 4))) }
    | .atr => sqlScan ls { st with atr := some (splitSemicolon (pyLower (pyStrip (l.drop 4)))) }
    | .frm => sqlScan ls { st with frm := some (splitSemicolon (pyLower (pyStrip (l.drop 4)))) }
    | .recRow => st
    | .other => sqlScan ls st

/-- The `offset` rename loop of `create_sql`. -/
def renameOffsetCols (atr : List (List Char)) : List (List Char) :=
  atr.map (fun a => if a = ("offset".data) then ("offset_".data) else a)

/-- The `frm` type-mapping loop of `create_sql` over the whole list;
the first Python `ValueError` aborts the whole function. -/
def mapFrmAll : List (List Char) → Option (List (List Char))
  | [] => some []
  | x :: xs =>
    match mapFrmChars x with
    | none => none
    | some y =>
      match mapFrmAll xs with
      | none => none
      | some ys => some (y :: ys)

/-- Failure modes of `create_sql`, in the order Python first reaches them:
unbound local `atr`, unbound local `frm`, `ValueError` from `int`, unbound
local `tbl` (the sql sink is bound by the same `tbl;` line as `tbl`). -/
inductive SqlError where
  | missingAtr | missingFrm | intValueError | missingTbl
deriving DecidableEq

/-- `create_sql` from the source: derives the CREATE TABLE statement from
the export file's metadata lines.  Note that column names and types are
paired by `zip`, which silently truncates to the shorter list. -/
def create_sql (lines : List String) : Except SqlError String :=
  let st := sqlScan (lines.map String.data) ⟨none, none, none⟩
  match st.atr with
  | none => .error .missingAtr
  | some atr =>
    match st.frm with
    | none => .error .missingFrm
    | some frm =>
      let atr2 := renameOffsetCols atr
      match mapFrmAll frm with
      | none => .error .intValueError
      | some frm2 =>
        match st.tbl with
        | none => .error .missingTbl
        | some tbl =>
          let columns := (atr2.zip frm2).map (fun p => p.1 ++ (" ".data) ++ p.2)
          .ok (String.mk (("CREATE TABLE gip_".data) ++ tbl ++ (" (".data) ++
            List.intercalate (", ".data) columns ++ (");".data)))

/-- Occurrence of a character sequence anywhere in a list (used only to
state counterexamples about generated text). -/
def containsSeq (pat : List Char) : List Char → Bool
  | [] => pat.isEmpty
  | c :: cs => pat.isPrefixOf (c :: cs) || containsSeq pat cs

/-- Python `os.path.splitext(s)[0]`: the name up to the last dot (the
importer's filenames have no leading dot, so the hidden-file special case
of `splitext` never applies). -/
def splitextBase (s : String) : String :=
  let cs := s.data
  if cs.contains '.' then
    String.mk (((cs.reverse.dropWhile (fun c => c ≠ '.')).drop 1).reverse)
  else s

/-- On-disk state seen by the GIP importer: file path to file lines. -/
abbrev FS := List (String × List String)

/-- Contents of a file, `none` when absent. -/
def readFile (fs : FS) (p : String) : Option (List String) :=
  match fs.find? (fun e => e.1 = p) with
  | some e => some e.2
  | none => none

/-- Python `os.path.isfile`. -/
def isfile (fs : FS) (p : String) : Bool :=
  (readFile fs p).isSome

/-- Python `open(p, 'w')` followed by writing `c`. -/
def writeFile (fs : FS) (p : String) (c : List String) : FS :=
  (p, c) :: fs

/-- One entry of the `files_A` table of `GipImporter.run_step`. -/
structure ImportTask where
  filename : String
  table : String
  columns : List String

/-- The `files_A` task table of `GipImporter.run_step`. -/
def files_A : List ImportTask :=
  [⟨"BikeHike.txt", "gip_bikehike", ["use_id"]⟩,
   ⟨"Link.txt", "gip_link", ["link_id"]⟩,
   ⟨"LinkCoordinate.txt", "gip_linkcoordinate", ["link_id", "count"]⟩,
   ⟨"LinkUse.txt", "gip_linkuse", ["use_id"]⟩,
   ⟨"Link2ReferenceObject.txt", "gip_link2referenceobject", ["idseq"]⟩,
   ⟨"Node.txt", "gip_node", ["node_id"]⟩,
   ⟨"ReferenceObject.txt", "gip_referenceobject", ["refobj_id"]⟩]

/-- Failures of the artifact-ensure steps: missing source file
(`FileNotFoundError` from `open`), or a failure inside the generators. -/
inductive StepError where
  | sourceMissing
  | csvFailed (e : CsvError)
  | sqlFailed (e : SqlError)
deriving DecidableEq

/-- Which derived artifact a parse produced. -/
inductive ArtifactKind where
  | csv | sql
deriving DecidableEq

/-- Observable side effects of the ensure steps, beyond the file system:
a full re-parse of the source export file. -/
inductive GipEffect where
  | parsedSource (filename : String) (which : ArtifactKind)
deriving DecidableEq

/-- The two artifact-ensure steps of the `GipImporter.run_step` task loop:
generate the csv only when absent, then generate the sql only when absent
(paths abbreviated to the archive-local names). -/
def ensureTaskArtifacts (fs : FS) (t : ImportTask) :
    Except StepError (FS × List GipEffect) :=
  let base := splitextBase t.filename
  let csvPath := base ++ ".csv"
  let sqlPath := base ++ ".sql"
  let step1 : Except StepError (FS × List GipEffect) :=
    if isfile fs csvPath then .ok (fs, [])
    else
      match readFile fs t.filename with
      | none => .error .sourceMissing
      | some src =>
        match create_csv src with
        | .error e => .error (.csvFailed e)
        | .ok out => .ok (writeFile fs csvPath [out], [.parsedSource t.filename .csv])
  match step1 with
  | .error e => .error e
  | .ok (fs1, effs1) =>
    if isfile fs1 sqlPath then .ok (fs1, effs1)
    else
      match readFile fs1 t.filename with
      | none => .error .sourceMissing
      | some src =>
        match create_sql src with
        | .error e => .error (.sqlFailed e)
        | .ok out => .ok (writeFile fs1 sqlPath [out], effs1 ++ [.parsedSource t.filename .sql])

/-- The overpass query template of `OsmImporter._load_osm_from_bbox`. -/
def q_template : String :=
  "\n            [timeout:900][maxsize:1073741824];\n            nwr(__bbox__);\n            out;"

/-- Python `str.replace` specialised to the bbox placeholder of the query
template (left-to-right, non-overlapping, no rescan of the replacement). -/
def replaceBBox (b : List Char) : List Char → List Char
  | '_' :: '_' :: 'b' :: 'b' :: 'o' :: 'x' :: '_' :: '_' :: cs => b ++ replaceBBox b cs
  | c :: cs => c :: replaceBBox b cs
  | [] => []

/-- The one fixed query built before the endpoint loop. -/
def buildQuery (bbox : String) : String :=
  String.mk (replaceBBox bbox.data q_template.data)

/-- Outcome of one `urlretrieve` attempt against one endpoint: a download
(the local file name), an `HTTPError`, or any other raised object of an
arbitrary type, matching the two `except` clauses of the loop. -/
inductive AttemptResult (ε : Type) where
  | ok (fileName : String)
  | httpError (code : Nat)
  | raise (e : ε)

/-- Whether an attempt reached the `else` (success) branch of the `try`. -/
def AttemptResult.isSuccess {ε : Type} : AttemptResult ε → Bool
  | .ok _ => true
  | _ => false

/-- The endpoint loop of `_load_osm_from_bbox`: advance over the endpoint
list on any raised error, stop at the first success, raise (error) after
exhausting the list.  The result carries the endpoints actually tried;
the error carries the full tried list and no file. -/
def loadLoop {ε : Type} (attempt : String → String → AttemptResult ε) (q : String) :
    List String → List String → Except (List String) (String × List String)
  | [], tried => .error tried
  | ep :: rest, tried =>
    match attempt ep q with
    | .ok f => .ok (f, tried ++ [ep])
    | .httpError _ => loadLoop attempt q rest (tried ++ [ep])
    | .raise _ => loadLoop attempt q rest (tried ++ [ep])

/-- `_load_osm_from_bbox` from the source: build the query once, then run
the endpoint failover loop from the first endpoint. -/
def load_osm_from_bbox {ε : Type} (endpoints : List String)
    (attempt : String → String → AttemptResult ε) (bbox : String) :
    Except (List String) (String × List String) :=
  loadLoop attempt (buildQuery bbox) endpoints []

/-- Settings dictionary lookup (`settings[k]`), `none` when the key is absent. -/
def lookupSetting (settings : List (String × String)) (k : String) : Option String :=
  match settings.find? (fun e => e.1 = k) with
  | some e => some e.2
  | none => none

/-- Modelled from the spec: `h.has_keys` from `toolbox.helper` (not under
`src/`) — true iff the settings mapping contains every listed key. -/
def has_keys (settings : List (String × String)) (keys : List String) : Bool :=
  keys.all (fun k => (lookupSetting settings k).isSome)

/-- Modelled from the spec: `h.has_any_key` from `toolbox.helper` (not
under `src/`) — true iff the settings mapping contains at least one of
the listed keys. -/
def has_any_key (settings : List (String × String)) (keys : List String) : Bool :=
  keys.any (fun k => (lookupSetting settings k).isSome)

/-- Run-aborting outcomes of the source-selection part of
`OsmImporter.run_step`: no selector configured, place-name selector
(`NotImplementedError`), or a `KeyError` (unreachable: the dictionary
access is guarded by `has_keys`). -/
inductive OsmRunError where
  | missingSelector
  | placeNameNotImplemented
  | keyError
deriving DecidableEq

/-- What the OSM import step ends up doing about its input file. -/
structure OsmOutcome where
  downloaded : Bool
  importedFile : String
deriving DecidableEq

/-- The input-selection logic of `OsmImporter.run_step` (lines guarding the
download plus the later choice of `filename`): when `filename` is absent,
validate the selectors, download on `bbox`, fail on `place_name`; the
`use_overpass_api` flag then decides which file is imported.  (On the
`place_name` error path a preceding `bbox` download is not recorded, as
the function aborts.) -/
def osmSourceSelection (settings : List (String × String)) (osmDownloadFname : String) :
    Except OsmRunError OsmOutcome :=
  if !(has_keys settings ["filename"]) then
    if !(has_any_key settings ["place_name", "bbox"]) then .error .missingSelector
    else if has_keys settings ["place_name"] then .error .placeNameNotImplemented
    else .ok { downloaded := has_keys settings ["bbox"], importedFile := osmDownloadFname }
  else
    match lookupSetting settings ("filename") with
    | some f => .ok { downloaded := false, importedFile := f }
    | none => .error .keyError

/-- Physical tables present in the database schema. -/
abbrev Db := List String

/-- Modelled from the spec: `handleConflictingOutputTables(names, schema)`
of the database collaborator (`toolbox.dbhelper`, not under `src/`) —
returns true ("safe to (re)create") iff none of the named outputs already
exists as a non-conflicting table. -/
def handleConflictingOutputTables (db : Db) (names : List String) : Bool :=
  names.all (fun n => decide (n ∉ db))

/-- Observable database actions of one derived-dataset block. -/
inductive DbEffect where
  | createTable (name : String)
  | createIndex (name : String)
  | commit
deriving DecidableEq

/-- One derived-dataset block of `OsmImporter.run_step`: conflict check,
then CREATE TABLE from the predicate, CREATE INDEX, commit — all three
inside the guard. -/
def buildDataset (db : Db) (name : String) : Db × List DbEffect :=
  if handleConflictingOutputTables db [name] then
    (name :: db, [DbEffect.createTable name, DbEffect.createIndex name, DbEffect.commit])
  else (db, [])

/-- The five derived datasets, in source order. -/
def osmDatasetNames : List String :=
  ["building", "crossing", "facility", "greenness", "water"]

/-- Sequence of dataset blocks over a list of names. -/
def buildAll (db : Db) : List String → Db × List DbEffect
  | [] => (db, [])
  | n :: rest =>
    let r := buildDataset db n
    let r2 := buildAll r.1 rest
    (r2.1, r.2 ++ r2.2)

/-- The derived-dataset part of `OsmImporter.run_step`. -/
def buildDerivedDatasets (db : Db) : Db × List DbEffect :=
  buildAll db osmDatasetNames

theorem stripPrefixChars_append (p cs : List Char) :
    stripPrefixChars p (p ++ cs) = some cs := by
  induction p with
  | nil => rfl
  | cons a ps ih => simp [stripPrefixChars, ih]

theorem digitSpan_append (ds : List Char) (c : Char) (r : List Char)
    (hd : ds.all isDigitChar = true) (hc : isDigitChar c = false) :
    digitSpan (ds ++ c :: r) = (ds, c :: r) := by
  induction ds with
  | nil => simp [digitSpan, hc]
  | cons a as ih =>
    simp only [List.all_cons, Bool.and_eq_true] at hd
    simp [digitSpan, hd.1, ih hd.2]

theorem parseStringLen_token (ds : List Char) (hd : ds.all isDigitChar = true) :
    parseStringLen (("string(".data) ++ (ds ++ (")".data))) = some ds := by
  have h2 : digitSpan (ds ++ (")".data)) = (ds, ')' :: ([] : List Char)) :=
    digitSpan_append ds ')' [] hd (by decide)
  simp only [parseStringLen, stripPrefixChars_append, h2]

theorem parseStringLen_decimal (rest : List Char) :
    parseStringLen (("decimal(".data) ++ rest) = none := rfl

theorem parseDecimalPS_token (p s : List Char)
    (hp : p.all isDigitChar = true) (hs : s.all isDigitChar = true) :
    parseDecimalPS (("decimal(".data) ++ (p ++ ((",".data) ++ (s ++ (")".data)))))
      = some (p, s) := by
  have h2 : digitSpan (p ++ ((",".data) ++ (s ++ (")".data))))
      = (p, ',' :: (s ++ (")".data))) :=
    digitSpan_append p ',' (s ++ (")".data)) hp (by decide)
  have h3 : digitSpan (s ++ (")".data)) = (s, ')' :: ([] : List Char)) :=
    digitSpan_append s ')' [] hs (by decide)
  simp only [parseDecimalPS, stripPrefixChars_append, h2, h3]

theorem parseDecimalPS_bare (p : List Char) (hp : p.all isDigitChar = true) :
    parseDecimalPS (("decimal(".data) ++ (p ++ (")".data))) = none := by
  have h2 : digitSpan (p ++ (")".data)) = (p, ')' :: ([] : List Char)) :=
    digitSpan_append p ')' [] hp (by decide)
  simp only [parseDecimalPS, stripPrefixChars_append, h2]
  rfl

theorem parseDecimalP_token (p : List Char) (hp : p.all isDigitChar = true) :
    parseDecimalP (("decimal(".data) ++ (p ++ (")".data))) = some p := by
  have h2 : digitSpan (p ++ (")".data)) = (p, ')' :: ([] : List Char)) :=
    digitSpan_append p ')' [] hp (by decide)
  simp only [parseDecimalP, stripPrefixChars_append, h2]

/-- C1: the schema type mapping is a pure per-token function with the
source's precedence: `string` maps to `varchar`, a string with a length to
`varchar` of that length, a decimal with precision and scale to `numeric`
of both, a bare decimal to `smallint`, `integer`, `bigint` or `numeric`
by the 4/10/18 precision thresholds, and every token matching none of the
patterns is passed through unchanged; in particular the seven concrete
examples of the claim hold. -/
theorem frm_type_mapping_table :
    (mapFrm ("string") = some ("varchar")
      ∧ mapFrm ("decimal(4)") = some ("smallint")
      ∧ mapFrm ("decimal(10)") = some ("integer")
      ∧ mapFrm ("decimal(18)") = some ("bigint")
      ∧ mapFrm ("decimal(19)") = some ("numeric(19)")
      ∧ mapFrm ("decimal(5,2)") = some ("numeric(5,2)")
      ∧ mapFrm ("string(10)") = some ("varchar(10)"))
    ∧ (∀ ds : List Char, ds.all isDigitChar = true →
        mapFrmChars (("string(".data) ++ (ds ++ (")".data)))
          = some ((("varchar(".data) ++ ds) ++ (")".data)))
    ∧ (∀ p s : List Char, p.all isDigitChar = true → s.all isDigitChar = true →
        mapFrmChars (("decimal(".data) ++ (p ++ ((",".data) ++ (s ++ (")".data)))))
          = some ((((("numeric(".data) ++ p) ++ (",".data)) ++ s) ++ (")".data)))
    ∧ (∀ p : List Char, p ≠ [] → p.all isDigitChar = true →
        mapFrmChars (("decimal(".data) ++ (p ++ (")".data)))
          = (if digitsToNat p ≤ 4 then some ("smallint".data)
             else if digitsToNat p ≤ 10 then some ("integer".data)
             else if digitsToNat p ≤ 18 then some ("bigint".data)
             else some ((("numeric(".data) ++ p) ++ (")".data))))
    ∧ (∀ t : List Char, parseStringLen t = none → parseDecimalPS t = none →
        parseDecimalP t = none → t ≠ ("string".data) → mapFrmChars t = some t) := by
  refine ⟨⟨rfl, rfl, rfl, rfl, rfl, rfl, rfl⟩, ?_, ?_, ?_, ?_⟩
  · intro ds hd
    simp only [mapFrmChars, parseStringLen_token ds hd]
  · intro p s hp hs
    simp only [mapFrmChars, parseDecimalPS_token p s hp hs]
    rfl
  · intro p hne hp
    simp only [mapFrmChars, parseDecimalPS_bare p hp, parseDecimalP_token p hp]
    rw [if_neg hne]
    rfl
  · intro t h1 h2 h3 h4
    simp only [mapFrmChars, h1, h2, h3]
    rw [if_neg h4]

/-- C1 witness: the general clauses of the mapping theorem applied at
concrete tokens, with their hypotheses discharged by evaluation. -/
theorem frm_type_mapping_table_witness :
    (("10".data).all isDigitChar = true
      ∧ mapFrmChars (("string(".data) ++ (("10".data) ++ (")".data)))
          = some ((("varchar(".data) ++ ("10".data)) ++ (")".data)))
    ∧ (parseStringLen ("geometry".data) = none
      ∧ mapFrmChars ("geometry".data) = some ("geometry".data)) :=
  ⟨⟨by decide, frm_type_mapping_table.2.1 ("10".data) (by decide)⟩,
   ⟨by decide, frm_type_mapping_table.2.2.2.2 ("geometry".data)
      (by decide) (by decide) (by decide) (by decide)⟩⟩

/-- C2 counterexample: on the example export file the data-file generator
writes the rec row with its double quotes intact; the quote characters are
not stripped (only the two-quote and quote-space-quote sequences are
removed, and neither occurs here), so the unquoted row text claimed by the
spec occurs nowhere in the generated file. -/
theorem gip_example_data_row_quoted_cex :
    create_csv ["tbl;parcels\n", "atr;parcel_id;area\n",
        "frm;decimal(9);decimal(8,2)\n", "rec;\"12345\";\"100.50\"\n"]
      = .ok ("parcel_id;area\n\"12345\";\"100.50\"\n")
    ∧ containsSeq (("12345;100.50").data)
        (("parcel_id;area\n\"12345\";\"100.50\"\n").data) = false :=
  ⟨rfl, by decide⟩

/-- C2 (amended): on the example export file the schema generator emits
exactly the claimed CREATE TABLE statement, and the data-file generator
writes the header line followed by the data row with its double quotes
preserved. -/
theorem gip_example_end_to_end :
    create_sql ["tbl;parcels\n", "atr;parcel_id;area\n",
        "frm;decimal(9);decimal(8,2)\n", "rec;\"12345\";\"100.50\"\n"]
      = .ok ("CREATE TABLE gip_parcels (parcel_id integer, area numeric(8,2));")
    ∧ create_csv ["tbl;parcels\n", "atr;parcel_id;area\n",
        "frm;decimal(9);decimal(8,2)\n", "rec;\"12345\";\"100.50\"\n"]
      = .ok ("parcel_id;area\n\"12345\";\"100.50\"\n") :=
  ⟨rfl, rfl⟩

theorem createCsvLines_rec_no_tbl (ls1 : List (List Char)) (lc : List Char)
    (ls2 : List (List Char)) (hrec : lineKind lc = LineKind.recRow)
    (hno : ∀ x ∈ ls1, lineKind x ≠ LineKind.tbl) :
    createCsvLines (ls1 ++ lc :: ls2) none = .error CsvError.noOpenSink := by
  induction ls1 with
  | nil => simp only [List.nil_append, createCsvLines, csvStep, hrec]
  | cons x xs ih =>
    have hx : lineKind x ≠ LineKind.tbl := hno x (by simp)
    have hxs : ∀ y ∈ xs, lineKind y ≠ LineKind.tbl := fun y hy => hno y (by simp [hy])
    cases hk : lineKind x with
    | tbl => exact absurd hk hx
    | atr => simp [createCsvLines, csvStep, hk]
    | frm => simpa [createCsvLines, csvStep, hk] using ih hxs
    | recRow => simp [createCsvLines, csvStep, hk]
    | other => simpa [createCsvLines, csvStep, hk] using ih hxs

/-- C4: whenever a rec line appears before any tbl line in the input file,
`create_csv` fails with the no-open-sink error (the write reaches the
unbound sink variable), producing no csv content. -/
theorem csv_rec_before_tbl_fails (l1 : List String) (l : String) (l2 : List String)
    (hrec : lineKind l.data = LineKind.recRow)
    (hno : ∀ x ∈ l1, lineKind x.data ≠ LineKind.tbl) :
    create_csv (l1 ++ l :: l2) = .error CsvError.noOpenSink := by
  have hno2 : ∀ x ∈ l1.map String.data, lineKind x ≠ LineKind.tbl := by
    intro x hx
    obtain ⟨y, hy, rfl⟩ := List.mem_map.mp hx
    exact hno y hy
  have h := createCsvLines_rec_no_tbl (l1.map String.data) l.data (l2.map String.data)
    hrec hno2
  unfold create_csv
  rw [List.map_append, List.map_cons, h]

/-- C4 witness: a file starting with a rec line fails as the theorem says. -/
theorem csv_rec_before_tbl_fails_witness :
    lineKind (("rec;x\n").data) = LineKind.recRow
    ∧ create_csv ["rec;x\n"] = .error CsvError.noOpenSink :=
  ⟨by decide, csv_rec_before_tbl_fails [] ("rec;x\n") [] (by decide) (by simp)⟩

/-- C5 counterexample: an export file whose atr record has two fields and
whose frm record has one field makes `create_sql` emit a truncated
one-column schema instead of failing. -/
theorem schema_count_mismatch_cex :
    (sqlScan (["tbl;t\n", "atr;a;b\n", "frm;string\n"].map String.data)
        ⟨none, none, none⟩).atr = some [("a".data), ("b".data)]
    ∧ (sqlScan (["tbl;t\n", "atr;a;b\n", "frm;string\n"].map String.data)
        ⟨none, none, none⟩).frm = some [("string".data)]
    ∧ create_sql ["tbl;t\n", "atr;a;b\n", "frm;string\n"]
        = .ok ("CREATE TABLE gip_t (a varchar);") :=
  ⟨by decide, by decide, rfl⟩

theorem mapFrmAll_length (xs : List (List Char)) :
    ∀ ys, mapFrmAll xs = some ys → ys.length = xs.length := by
  induction xs with
  | nil =>
    intro ys h
    simp only [mapFrmAll, Option.some.injEq] at h
    subst h
    rfl
  | cons x xs ih =>
    intro ys h
    simp only [mapFrmAll] at h
    cases hm : mapFrmChars x with
    | none => rw [hm] at h; exact Option.noConfusion h
    | some y =>
      rw [hm] at h
      cases hr : mapFrmAll xs with
      | none => rw [hr] at h; exact Option.noConfusion h
      | some ys0 =>
        rw [hr] at h
        have hy := Option.some.inj h
        subst hy
        simp [ih ys0 hr]

/-- C5 (amended): when the atr and frm field counts differ, `create_sql`
does not fail; it pairs column names with mapped types positionally via
`zip`, silently truncating to the shorter list, so the emitted schema has
min(#atr, #frm) columns. -/
theorem schema_count_mismatch_truncates (lines : List String)
    (atr frm frm2 : List (List Char)) (tbl : List Char)
    (ha : (sqlScan (lines.map String.data) ⟨none, none, none⟩).atr = some atr)
    (hf : (sqlScan (lines.map String.data) ⟨none, none, none⟩).frm = some frm)
    (hm : mapFrmAll frm = some frm2)
    (ht : (sqlScan (lines.map String.data) ⟨none, none, none⟩).tbl = some tbl) :
    create_sql lines
      = .ok (String.mk (("CREATE TABLE gip_".data) ++ tbl ++ (" (".data) ++
          List.intercalate ((", ").data)
            (((renameOffsetCols atr).zip frm2).map (fun p => p.1 ++ ((" ").data) ++ p.2))
          ++ ((");").data)))
    ∧ ((renameOffsetCols atr).zip frm2).length = min atr.length frm.length := by
  constructor
  · simp only [create_sql, ha, hf, hm, ht]
  · rw [List.length_zip]
    simp only [renameOffsetCols, List.length_map, mapFrmAll_length frm frm2 hm]

/-- C5 witness: the amended theorem applied to the two-columns-versus-one
mismatch file. -/
theorem schema_count_mismatch_truncates_witness :
    create_sql ["tbl;t\n", "atr;a;b\n", "frm;string\n"]
      = .ok ("CREATE TABLE gip_t (a varchar);")
    ∧ ((renameOffsetCols [("a".data), ("b".data)]).zip [("varchar".data)]).length
        = min ([("a".data), ("b".data)] : List (List Char)).length
            ([("string".data)] : List (List Char)).length := by
  have h := schema_count_mismatch_truncates ["tbl;t\n", "atr;a;b\n", "frm;string\n"]
    [("a".data), ("b".data)] [("string".data)] [("varchar".data)] ("t".data)
    (by decide) (by decide) (by decide) (by decide)
  exact ⟨h.1.trans rfl, h.2⟩

theorem readFile_writeFile_ne (fs : FS) (p q : String) (c : List String) (h : q ≠ p) :
    readFile (writeFile fs p c) q = readFile fs q := by
  simp [readFile, writeFile, List.find?, Ne.symm h]

theorem csvPath_ne_sqlPath (base : String) : base ++ ".csv" ≠ base ++ ".sql" := by
  intro h
  have h2 := congrArg String.data h
  rw [String.data_append, String.data_append] at h2
  exact absurd (List.append_cancel_left h2) (by decide)

/-- C6: when a derived artifact file already exists on disk the
corresponding ensure step is skipped entirely, regardless of the artifact
content: with both artifacts present the step returns the file system
unchanged with no parse effect, and whichever single artifact is present,
its generator is not run and its file is not touched or rewritten. -/
theorem ensure_artifacts_skip_when_present (fs : FS) (t : ImportTask) :
    (isfile fs (splitextBase t.filename ++ ".csv") = true →
      isfile fs (splitextBase t.filename ++ ".sql") = true →
      ensureTaskArtifacts fs t = .ok (fs, []))
    ∧ (isfile fs (splitextBase t.filename ++ ".csv") = true →
      ∀ fs2 effs, ensureTaskArtifacts fs t = .ok (fs2, effs) →
        GipEffect.parsedSource t.filename ArtifactKind.csv ∉ effs
        ∧ readFile fs2 (splitextBase t.filename ++ ".csv")
            = readFile fs (splitextBase t.filename ++ ".csv"))
    ∧ (isfile fs (splitextBase t.filename ++ ".sql") = true →
      ∀ fs2 effs, ensureTaskArtifacts fs t = .ok (fs2, effs) →
        GipEffect.parsedSource t.filename ArtifactKind.sql ∉ effs
        ∧ readFile fs2 (splitextBase t.filename ++ ".sql")
            = readFile fs (splitextBase t.filename ++ ".sql")) := by
  refine ⟨?_, ?_, ?_⟩
  · intro h1 h2
    simp [ensureTaskArtifacts, h1, h2]
  · intro h1 fs2 effs h
    by_cases h2 : isfile fs (splitextBase t.filename ++ ".sql") = true
    · simp [ensureTaskArtifacts, h1, h2] at h
      obtain ⟨rfl, rfl⟩ := h
      simp
    · cases hr : readFile fs t.filename with
      | none => simp [ensureTaskArtifacts, h1, h2, hr] at h
      | some src =>
        cases hcs : create_sql src with
        | error e => simp [ensureTaskArtifacts, h1, h2, hr, hcs] at h
        | ok out =>
          simp [ensureTaskArtifacts, h1, h2, hr, hcs] at h
          obtain ⟨rfl, rfl⟩ := h
          constructor
          · simp
          · exact readFile_writeFile_ne fs _ _ _ (csvPath_ne_sqlPath _)
  · intro h2 fs2 effs h
    by_cases h1 : isfile fs (splitextBase t.filename ++ ".csv") = true
    · simp [ensureTaskArtifacts, h1, h2] at h
      obtain ⟨rfl, rfl⟩ := h
      simp
    · cases hr : readFile fs t.filename with
      | none => simp [ensureTaskArtifacts, h1, hr] at h
      | some src =>
        cases hcc : create_csv src with
        | error e => simp [ensureTaskArtifacts, h1, hr, hcc] at h
        | ok out =>
          have hsql : isfile (writeFile fs (splitextBase t.filename ++ ".csv") [out])
              (splitextBase t.filename ++ ".sql") = true := by
            unfold isfile
            rw [readFile_writeFile_ne fs _ _ _ (Ne.symm (csvPath_ne_sqlPath _))]
            exact h2
          simp [ensureTaskArtifacts, h1, hr, hcc, hsql] at h
          obtain ⟨rfl, rfl⟩ := h
          constructor
          · simp
          · exact readFile_writeFile_ne fs _ _ _ (Ne.symm (csvPath_ne_sqlPath _))

/-- C6 witness: with both derived artifacts already on disk the ensure
step leaves the file system unchanged and performs no parse. -/
theorem ensure_artifacts_skip_when_present_witness :
    isfile [(("BikeHike.csv" : String), (["x"] : List String)), ("BikeHike.sql", ["y"])]
        (splitextBase ("BikeHike.txt") ++ ".csv") = true
    ∧ ensureTaskArtifacts [("BikeHike.csv", ["x"]), ("BikeHike.sql", ["y"])]
        ⟨"BikeHike.txt", "gip_bikehike", ["use_id"]⟩
      = .ok ([("BikeHike.csv", ["x"]), ("BikeHike.sql", ["y"])], []) :=
  ⟨by decide,
   (ensure_artifacts_skip_when_present
      [("BikeHike.csv", ["x"]), ("BikeHike.sql", ["y"])]
      ⟨"BikeHike.txt", "gip_bikehike", ["use_id"]⟩).1 (by decide) (by decide)⟩

theorem handleConflicting_singleton (db : Db) (n : String) :
    handleConflictingOutputTables db [n] = true ↔ n ∉ db := by
  simp [handleConflictingOutputTables]

theorem buildDataset_mem (db : Db) (n : String) (h : n ∈ db) :
    buildDataset db n = (db, []) := by
  simp [buildDataset, handleConflictingOutputTables, h]

theorem buildDataset_fst_mem (db : Db) (n m : String) (h : m ∈ db) :
    m ∈ (buildDataset db n).1 := by
  unfold buildDataset
  split
  · exact List.mem_cons_of_mem _ h
  · exact h

theorem buildDataset_self_mem (db : Db) (n : String) : n ∈ (buildDataset db n).1 := by
  unfold buildDataset
  split
  · exact List.mem_cons_self _ _
  · next hcond =>
    have h2 : ¬ (n ∉ db) := fun hn => hcond ((handleConflicting_singleton db n).mpr hn)
    exact not_not.mp h2

theorem buildDataset_nodup (db : Db) (n : String) (h : db.Nodup) :
    (buildDataset db n).1.Nodup := by
  unfold buildDataset
  split
  · next hcond =>
    exact List.nodup_cons.mpr ⟨(handleConflicting_singleton db n).mp hcond, h⟩
  · exact h

theorem buildAll_fst_mem (names : List String) (db : Db) (m : String) (h : m ∈ db) :
    m ∈ (buildAll db names).1 := by
  induction names generalizing db with
  | nil => exact h
  | cons n rest ih =>
    simp only [buildAll]
    exact ih _ (buildDataset_fst_mem db n m h)

theorem buildAll_all_mem (names : List String) (db : Db) :
    ∀ n ∈ names, n ∈ (buildAll db names).1 := by
  induction names generalizing db with
  | nil => intro n hn; cases hn
  | cons a rest ih =>
    intro n hn
    simp only [buildAll]
    rcases List.mem_cons.mp hn with h | h
    · subst h
      exact buildAll_fst_mem rest _ n (buildDataset_self_mem db n)
    · exact ih _ n h

theorem buildAll_skip_all_present (names : List String) (db : Db)
    (h : ∀ n ∈ names, n ∈ db) : buildAll db names = (db, []) := by
  induction names with
  | nil => rfl
  | cons a rest ih =>
    have ha : a ∈ db := h a (by simp)
    simp [buildAll, buildDataset_mem db a ha, ih (fun n hn => h n (by simp [hn]))]

theorem buildAll_nodup (names : List String) (db : Db) (h : db.Nodup) :
    (buildAll db names).1.Nodup := by
  induction names generalizing db with
  | nil => exact h
  | cons a rest ih =>
    simp only [buildAll]
    exact ih _ (buildDataset_nodup db a h)

/-- C7: derived-dataset materialization is idempotent by existence: a
dataset whose name already exists in the database is skipped entirely (no
CREATE TABLE, no index, no commit), a second run of the whole builder is
a no-op on the database and performs no action at all, and after one run
each of the five dataset names exists exactly once. -/
theorem derived_datasets_idempotent (db : Db) (hnd : db.Nodup) :
    (∀ name, name ∈ db → buildDataset db name = (db, []))
    ∧ buildDerivedDatasets (buildDerivedDatasets db).1 = ((buildDerivedDatasets db).1, [])
    ∧ (∀ n ∈ osmDatasetNames, ((buildDerivedDatasets db).1).count n = 1) := by
  refine ⟨fun name h => buildDataset_mem db name h, ?_, ?_⟩
  · exact buildAll_skip_all_present osmDatasetNames _ (buildAll_all_mem osmDatasetNames db)
  · intro n hn
    exact List.count_eq_one_of_mem (buildAll_nodup osmDatasetNames db hnd)
      (buildAll_all_mem osmDatasetNames db n hn)

/-- C7 witness: starting from an empty database, the second builder run is
a no-op and the building dataset exists exactly once. -/
theorem derived_datasets_idempotent_witness :
    buildDerivedDatasets (buildDerivedDatasets []).1 = ((buildDerivedDatasets []).1, [])
    ∧ ((buildDerivedDatasets ([] : Db)).1).count ("building") = 1 :=
  ⟨(derived_datasets_idempotent [] (by simp)).2.1,
   (derived_datasets_idempotent [] (by simp)).2.2 ("building") (by simp [osmDatasetNames])⟩

theorem loadLoop_all_fail {ε : Type} (attempt : String → String → AttemptResult ε)
    (q : String) (eps : List String) :
    ∀ tried, (∀ e ∈ eps, (attempt e q).isSuccess = false) →
      loadLoop attempt q eps tried = .error (tried ++ eps) := by
  induction eps with
  | nil => intro tried _; simp [loadLoop]
  | cons a rest ih =>
    intro tried h
    have ha := h a (by simp)
    have hrest : ∀ e ∈ rest, (attempt e q).isSuccess = false :=
      fun e he => h e (by simp [he])
    cases hat : attempt a q with
    | ok f => rw [hat] at ha; exact absurd ha (by simp [AttemptResult.isSuccess])
    | httpError c =>
      simp only [loadLoop, hat]
      rw [ih (tried ++ [a]) hrest]
      simp
    | raise x =>
      simp only [loadLoop, hat]
      rw [ih (tried ++ [a]) hrest]
      simp

theorem loadLoop_first_success {ε : Type} (attempt : String → String → AttemptResult ε)
    (q : String) (pre : List String) :
    ∀ (tried rest : List String) (ep f : String),
      (∀ e ∈ pre, (attempt e q).isSuccess = false) →
      attempt ep q = .ok f →
      loadLoop attempt q (pre ++ ep :: rest) tried = .ok (f, (tried ++ pre) ++ [ep]) := by
  induction pre with
  | nil =>
    intro tried rest ep f _ hok
    simp [loadLoop, hok]
  | cons a pre ih =>
    intro tried rest ep f hfail hok
    have ha := hfail a (by simp)
    have hpre : ∀ e ∈ pre, (attempt e q).isSuccess = false :=
      fun e he => hfail e (by simp [he])
    cases hat : attempt a q with
    | ok g => rw [hat] at ha; exact absurd ha (by simp [AttemptResult.isSuccess])
    | httpError c =>
      simp only [List.cons_append, loadLoop, hat, List.append_eq]
      rw [ih (tried ++ [a]) rest ep f hpre hok]
      simp
    | raise x =>
      simp only [List.cons_append, loadLoop, hat, List.append_eq]
      rw [ih (tried ++ [a]) rest ep f hpre hok]
      simp

/-- C3: resource acquisition from a bounding box builds the one fixed
query and walks the ordered endpoint list with it unchanged: if every
endpoint before some endpoint fails (raises) and that endpoint succeeds,
the result is exactly its downloaded file with only the endpoints up to
and including it tried; if every endpoint fails, the loop raises the
exhaustion error, returning no file, with the full list tried. -/
theorem osm_failover_first_success_or_exhaustion {ε : Type}
    (endpoints : List String) (attempt : String → String → AttemptResult ε)
    (bbox : String) :
    (∀ (pre post : List String) (ep f : String),
      endpoints = pre ++ ep :: post →
      (∀ e ∈ pre, (attempt e (buildQuery bbox)).isSuccess = false) →
      attempt ep (buildQuery bbox) = .ok f →
      load_osm_from_bbox endpoints attempt bbox = .ok (f, pre ++ [ep]))
    ∧ ((∀ e ∈ endpoints, (attempt e (buildQuery bbox)).isSuccess = false) →
      load_osm_from_bbox endpoints attempt bbox = .error endpoints) := by
  constructor
  · intro pre post ep f hsplit hfail hok
    subst hsplit
    unfold load_osm_from_bbox
    rw [loadLoop_first_success attempt (buildQuery bbox) pre [] post ep f hfail hok]
    simp
  · intro hfail
    unfold load_osm_from_bbox
    rw [loadLoop_all_fail attempt (buildQuery bbox) endpoints [] hfail]
    simp

/-- C3 witness: endpoints A and B raise, C succeeds: the result is C's
file after trying exactly A, B, C; with every endpoint failing the loop
errors out having tried the whole list. -/
theorem osm_failover_witness :
    load_osm_from_bbox ["A", "B", "C"]
      (fun ep _ => if ep = "A" then AttemptResult.httpError 429
        else if ep = "B" then AttemptResult.raise ("boom")
        else (AttemptResult.ok ("c.osm") : AttemptResult String)) "1,2,3,4"
      = .ok ("c.osm", ["A", "B", "C"])
    ∧ load_osm_from_bbox ["A", "B"]
      (fun _ _ => (AttemptResult.raise ("down") : AttemptResult String)) "1,2,3,4"
      = .error ["A", "B"] := by
  constructor
  · exact (osm_failover_first_success_or_exhaustion ["A", "B", "C"] _ ("1,2,3,4")).1
      ["A", "B"] [] "C" "c.osm" rfl (by decide) rfl
  · exact (osm_failover_first_success_or_exhaustion ["A", "B"] _ ("1,2,3,4")).2 (by decide)

theorem loadLoop_error_spec {ε : Type} (attempt : String → String → AttemptResult ε)
    (q : String) (eps : List String) :
    ∀ tried t, loadLoop attempt q eps tried = .error t →
      t = tried ++ eps ∧ ∀ e ∈ eps, (attempt e q).isSuccess = false := by
  induction eps with
  | nil =>
    intro tried t h
    simp only [loadLoop, Except.error.injEq] at h
    subst h
    simp
  | cons a rest ih =>
    intro tried t h
    cases hat : attempt a q with
    | ok f => simp [loadLoop, hat] at h
    | httpError c =>
      simp only [loadLoop, hat] at h
      obtain ⟨ht, hall⟩ := ih (tried ++ [a]) t h
      refine ⟨by simpa [List.append_assoc] using ht, ?_⟩
      intro e he
      rcases List.mem_cons.mp he with rfl | he2
      · simp [hat, AttemptResult.isSuccess]
      · exact hall e he2
    | raise x =>
      simp only [loadLoop, hat] at h
      obtain ⟨ht, hall⟩ := ih (tried ++ [a]) t h
      refine ⟨by simpa [List.append_assoc] using ht, ?_⟩
      intro e he
      rcases List.mem_cons.mp he with rfl | he2
      · simp [hat, AttemptResult.isSuccess]
      · exact hall e he2

theorem loadLoop_ok_of_mem_success {ε : Type} (attempt : String → String → AttemptResult ε)
    (q : String) (eps : List String) :
    ∀ tried e, e ∈ eps → (attempt e q).isSuccess = true →
      (loadLoop attempt q eps tried).isOk = true := by
  induction eps with
  | nil => intro tried e he _; cases he
  | cons a rest ih =>
    intro tried e he hs
    cases hat : attempt a q with
    | ok f => simp [loadLoop, hat, Except.isOk, Except.toBool]
    | httpError c =>
      rcases List.mem_cons.mp he with rfl | he2
      · rw [hat] at hs; simp [AttemptResult.isSuccess] at hs
      · simp only [loadLoop, hat]
        exact ih (tried ++ [a]) e he2 hs
    | raise x =>
      rcases List.mem_cons.mp he with rfl | he2
      · rw [hat] at hs; simp [AttemptResult.isSuccess] at hs
      · simp only [loadLoop, hat]
        exact ih (tried ++ [a]) e he2 hs

/-- C9: every exception raised by a single download attempt, of any class
whatsoever (the HTTPError clause or the BaseException catch-all, with an
arbitrary payload type), is converted into advancing to the next
endpoint: the loop result is an error only when every endpoint's attempt
failed, and that error is the exhaustion error carrying no attempt
exception; one successful endpoint anywhere in the list guarantees a file
result, so no per-attempt exception ever propagates. -/
theorem download_errors_all_caught {ε : Type} (endpoints : List String)
    (attempt : String → String → AttemptResult ε) (bbox : String) :
    (∀ t, load_osm_from_bbox endpoints attempt bbox = .error t →
      t = endpoints ∧ ∀ e ∈ endpoints, (attempt e (buildQuery bbox)).isSuccess = false)
    ∧ (∀ e ∈ endpoints, (attempt e (buildQuery bbox)).isSuccess = true →
      (load_osm_from_bbox endpoints attempt bbox).isOk = true) := by
  constructor
  · intro t h
    have h2 := loadLoop_error_spec attempt (buildQuery bbox) endpoints [] t h
    simpa using h2
  · intro e he hs
    exact loadLoop_ok_of_mem_success attempt (buildQuery bbox) endpoints [] e he hs

/-- C9 witness: a run over two endpoints raising different exception
classes yields the bare exhaustion error with both endpoints failed, and
a run whose first endpoint raises a payload exception still succeeds via
the second endpoint. -/
theorem download_errors_all_caught_witness :
    ((["A", "B"] : List String) = ["A", "B"]
      ∧ ∀ e ∈ (["A", "B"] : List String),
        ((fun ep _ => if ep = "A" then AttemptResult.httpError 500
            else (AttemptResult.raise ("weird") : AttemptResult String)) e
          (buildQuery ("0,0,1,1"))).isSuccess = false)
    ∧ (load_osm_from_bbox ["X", "C"]
        (fun ep _ => if ep = "X" then AttemptResult.raise ("weird")
          else (AttemptResult.ok ("c.osm") : AttemptResult String)) "0,0,1,1").isOk
        = true := by
  constructor
  · exact (download_errors_all_caught ["A", "B"]
      (fun ep _ => if ep = "A" then AttemptResult.httpError 500
        else (AttemptResult.raise ("weird") : AttemptResult String)) "0,0,1,1").1
      ["A", "B"] rfl
  · exact (download_errors_all_caught ["X", "C"]
      (fun ep _ => if ep = "X" then AttemptResult.raise ("weird")
        else (AttemptResult.ok ("c.osm") : AttemptResult String)) "0,0,1,1").2
      "C" (by decide) rfl

/-- C10: when the settings contain the filename key, the OSM run performs
no download and no selector validation: neither the missing-selector
configuration error nor the place-name NotImplementedError can occur,
even when bbox or place_name are also present, and the imported file is
the caller-supplied filename rather than the download target. -/
theorem osm_filename_bypasses_download (settings : List (String × String))
    (dlFname f : String) (h : lookupSetting settings ("filename") = some f) :
    osmSourceSelection settings dlFname
      = .ok { downloaded := false, importedFile := f } := by
  have hk : has_keys settings ["filename"] = true := by
    simp [has_keys, h]
  simp [osmSourceSelection, hk, h]

/-- C10 witness: settings carrying filename together with both selectors
still make the run use the caller-supplied file, downloading nothing. -/
theorem osm_filename_bypasses_download_witness :
    lookupSetting [(("filename" : String), ("city.pbf" : String)),
        ("bbox", "1,2,3,4"), ("place_name", "X")] "filename" = some ("city.pbf")
    ∧ osmSourceSelection
        [("filename", "city.pbf"), ("bbox", "1,2,3,4"), ("place_name", "X")]
        "osm_download.osm"
      = .ok { downloaded := false, importedFile := "city.pbf" } :=
  ⟨by decide,
   osm_filename_bypasses_download
     [("filename", "city.pbf"), ("bbox", "1,2,3,4"), ("place_name", "X")]
     "osm_download.osm" "city.pbf" (by decide)⟩

/-- C8 counterexample: with the atr record listing a second field written
as space-offset, the strip is line-level only, so the field keeps its
interior space: its trimmed lower-cased name is exactly offset, yet the
rename rule compares the unstripped field and leaves it unchanged —
`offset_` occurs nowhere in the generated schema. -/
theorem offset_padded_not_renamed_cex :
    pyLower (pyStrip ((" offset").data)) = ("offset").data
    ∧ create_sql ["tbl;t\n", "atr;a; offset\n", "frm;string;string\n"]
        = .ok ("CREATE TABLE gip_t (a varchar,  offset varchar);")
    ∧ containsSeq (("offset_").data)
        (("CREATE TABLE gip_t (a varchar,  offset varchar);").data) = false :=
  ⟨by decide, rfl, by decide⟩

/-- C8 (amended): the rename rule applies to exactly the fields that are
literally offset after the line-level strip, lower-casing and semicolon
split: such a field becomes offset_ and every other field is left
unchanged (fields keeping interior padding from the split are not
renamed); end to end, a column named offset is emitted as offset_. -/
theorem offset_rename_exact_match :
    (∀ (names : List (List Char)) (i : Nat) (a : List Char), names[i]? = some a →
      (renameOffsetCols names)[i]?
        = some (if a = ("offset").data then ("offset_").data else a))
    ∧ create_sql ["tbl;t\n", "atr;offset;x\n", "frm;string;string\n"]
        = .ok ("CREATE TABLE gip_t (offset_ varchar, x varchar);") := by
  constructor
  · intro names i a h
    simp [renameOffsetCols, List.getElem?_map, h]
  · rfl

/-- C8 witness: the rename-map clause applied to a concrete column list
whose first field is literally offset. -/
theorem offset_rename_exact_match_witness :
    (([("offset").data, ("x").data] : List (List Char)))[0]? = some (("offset").data)
    ∧ (renameOffsetCols [("offset").data, ("x").data])[0]? = some (("offset_").data) :=
  ⟨by decide,
   (offset_rename_exact_match).1 [("offset").data, ("x").data] 0 (("offset").data) (by decide)⟩
